import Mathlib

/-!
Shallow embedding of the LeadRevive lead-intake core (`src/main.py`):
validation (`valid_email`, `valid_phone`), scoring (`calculate_score`),
classification (`classify_lead`), the deduplicating upsert on the
`leads.csv` table, and the dashboard aggregation.

Modelling conventions:
* Python strings are Lean `String`s, processed as their `List Char` data.
* Python's `re` word class `\w` is modelled on ASCII (letters, digits,
  underscore); Python additionally accepts other Unicode word characters,
  which none of the properties below depend on.
* Python's `str.isdigit` accepts every Unicode digit character; the model
  covers the ASCII digits and the fullwidth digits U+FF10..U+FF19, the
  ranges exercised here (Python accepts further ranges such as
  Arabic-Indic digits, all non-ASCII like the fullwidth ones).
* The budget comes from a number input with `min_value=0`, so it is a
  `Nat`; scores are `Nat`, `classify_lead` takes an `Int` as it is specified
  over every integer score.
* Floating point arithmetic of the dashboard (`* 0.3`, `round(x, 1)`) is
  modelled over `ℚ` with exact constants; Python's `round` ties-to-even
  rule is reproduced by `pyRound`, `int()` truncation toward zero by `pyInt`.
* The `leads.csv` file is an `Option (List LeadRecord)` (`none` = the file
  does not exist); `datetime.now()` is an opaque `Nat` timestamp passed in.
-/

namespace LeadRevive

/-! ### Validation (`src/main.py` lines 46-51) -/

/-- ASCII model of the regex class `\w`: letters, digits, underscore. -/
def isWordChar (c : Char) : Bool :=
  c.isAlphanum || c = '_'

/-- The regex class `[\w\.-]`: word characters, dot, hyphen. -/
def isWddChar (c : Char) : Bool :=
  isWordChar c || c = '.' || c = '-'

/-- Python's `$` anchor (no MULTILINE): matches at the end of the string,
or just before a newline that ends the string. -/
def dollarOk : List Char → Bool
  | [] => true
  | [c] => c == '\n'
  | _ :: _ :: _ => false

/-- True exactly at the end of the string: the strict reading of an end
anchor, with no trailing-newline allowance. -/
def strictEnd : List Char → Bool
  | [] => true
  | _ :: _ => false

/-- The regex matchers below follow the shape of the source pattern
`^[\w\.-]+@[\w\.-]+\.\w+$`, with the test applied at the position of `$`
passed in as `endOk` (Python's `dollarOk` for the source behaviour).
`wordPlusTail` matches `\w+` followed by the end test. -/
def wordPlusTail (endOk : List Char → Bool) : List Char → Bool
  | [] => false
  | c :: rest => isWordChar c && (endOk rest || wordPlusTail endOk rest)

/-- Matches `\.\w+` followed by the end test. -/
def dotTail (endOk : List Char → Bool) : List Char → Bool
  | [] => false
  | c :: rest => c == '.' && wordPlusTail endOk rest

/-- Matches `[\w\.-]+\.\w+` followed by the end test. -/
def domainTail (endOk : List Char → Bool) : List Char → Bool
  | [] => false
  | c :: rest => isWddChar c && (dotTail endOk rest || domainTail endOk rest)

/-- Matches `@[\w\.-]+\.\w+` followed by the end test. -/
def atDomainTail (endOk : List Char → Bool) : List Char → Bool
  | [] => false
  | c :: rest => c == '@' && domainTail endOk rest

/-- Matches `[\w\.-]+@[\w\.-]+\.\w+` followed by the end test. -/
def emailTail (endOk : List Char → Bool) : List Char → Bool
  | [] => false
  | c :: rest => isWddChar c && (atDomainTail endOk rest || emailTail endOk rest)

/-- `valid_email` from `src/main.py`:
`re.match(r"^[\w\.-]+@[\w\.-]+\.\w+$", email)` (truthiness of the match),
with `$` behaving as Python's end anchor. -/
def valid_email (email : String) : Bool :=
  emailTail dollarOk email.data

/-- The matcher the claim describes: the same pattern anchored strictly at
the end of the string, permitting no extra trailing characters at all. -/
def claimAnchoredEmail (email : String) : Bool :=
  emailTail strictEnd email.data

/-- A character accepted by Python's `str.isdigit` (see the modelling note
at the top of the file: ASCII digits and fullwidth digits). -/
def pyIsDigit (c : Char) : Bool :=
  ('0' ≤ c && c ≤ '9') || ('０' ≤ c && c ≤ '９')

/-- `valid_phone` from `src/main.py`:
`phone.isdigit() and len(phone) == 10`.
`str.isdigit()` is true iff the string is nonempty and every character is
a digit; `len` counts code points. -/
def valid_phone (phone : String) : Bool :=
  (!phone.data.isEmpty && phone.data.all pyIsDigit) && phone.data.length == 10

/-! ### Smart scoring (`src/main.py` lines 54-85) -/

/-- The `budget_score` local of `calculate_score`: the budget weight
(0-60), thresholds checked high to low. -/
def budget_score_of (budget : Nat) : Nat :=
  if budget ≥ 100000 then 60
  else if budget ≥ 50000 then 45
  else if budget ≥ 20000 then 30
  else if budget > 0 then 15
  else 0

/-- The `urgency_score` local of `calculate_score`:
`urgency_map.get(urgency, 0)` on `{"High": 40, "Medium": 25, "Low": 10}`. -/
def urgency_score_of (urgency : String) : Nat :=
  if urgency = "High" then 40
  else if urgency = "Medium" then 25
  else if urgency = "Low" then 10
  else 0

/-- `calculate_score` from `src/main.py`. -/
def calculate_score (budget : Nat) (urgency : String) : Nat :=
  budget_score_of budget + urgency_score_of urgency

/-- `classify_lead` from `src/main.py`. -/
def classify_lead (score : Int) : String :=
  if score ≥ 80 then "Hot"
  else if score ≥ 50 then "Warm"
  else "Cold"

/-! ### The lead store (`src/main.py` lines 145-164, 170-180) -/

/-- One row of `leads.csv`, the `data` dict of the analyze handler.
Python field `Lead Score` (the tier label) is `LeadScore`, `Numeric Score`
is `NumericScore`. -/
structure LeadRecord where
  Name : String
  Email : String
  Phone : String
  Budget : Nat
  Urgency : String
  LeadScore : String
  NumericScore : Nat
  Timestamp : Nat
deriving DecidableEq

/-- The save step of the analyze handler when `leads.csv` exists:
`existing = existing[existing["Email"] != email]` followed by
`pd.concat([existing, new_df])`. -/
def upsert (store : List LeadRecord) (rec : LeadRecord) : List LeadRecord :=
  (store.filter fun r => r.Email != rec.Email) ++ [rec]

/-- The `data` dict built by the analyze handler (lines 146-155): every
field comes from the current submission; `now` stands for `datetime.now()`. -/
def mkRecord (name email phone : String) (budget : Nat) (urgency : String)
    (now : Nat) : LeadRecord :=
  { Name := name
    Email := email
    Phone := phone
    Budget := budget
    Urgency := urgency
    LeadScore := classify_lead (calculate_score budget urgency)
    NumericScore := calculate_score budget urgency
    Timestamp := now }

/-- Validation errors surfaced by the analyze handler (`st.error` + `st.stop`). -/
inductive ValidationError where
  | MissingName
  | InvalidEmail
  | InvalidPhone
deriving DecidableEq

/-- The observable outcome of one press of the Analyze button. -/
structure AnalyzeResult where
  errorKind : Option ValidationError
  wasDuplicate : Bool
  score : Nat
  tier : String
  storeAfter : Option (List LeadRecord)
deriving DecidableEq

/-- The analyze handler (`src/main.py` lines 105-164): validation
short-circuits in the order name, email, phone (`st.stop()` is modelled as
an early return leaving the store untouched, with the score fields unset
at 0 and ""); on success the duplicate advisory `wasDuplicate` is computed
against the current table, then the record is upserted (the table is
created fresh when `leads.csv` does not exist). -/
def analyze (store : Option (List LeadRecord)) (name email phone : String)
    (budget : Nat) (urgency : String) (now : Nat) : AnalyzeResult :=
  if name = "" then
    ⟨some ValidationError.MissingName, false, 0, "", store⟩
  else if !valid_email email then
    ⟨some ValidationError.InvalidEmail, false, 0, "", store⟩
  else if !valid_phone phone then
    ⟨some ValidationError.InvalidPhone, false, 0, "", store⟩
  else
    let score := calculate_score budget urgency
    let classification := classify_lead score
    let wasDup := match store with
      | some s => s.any fun r => r.Email == email
      | none => false
    let record := mkRecord name email phone budget urgency now
    let newStore := match store with
      | some s => upsert s record
      | none => [record]
    ⟨none, wasDup, score, classification, some newStore⟩

/-! ### Dashboard aggregation (`src/main.py` lines 175-180).
Floats are modelled as exact rationals; `0.3` is `3/10`. -/

/-- Python's `round` to an integer: round half to even. -/
def pyRound (q : ℚ) : ℤ :=
  if q - Int.floor q < 1/2 then Int.floor q
  else if 1/2 < q - Int.floor q then Int.floor q + 1
  else if Int.floor q % 2 = 0 then Int.floor q else Int.floor q + 1

/-- Python's `round(x, 1)`: one decimal place, ties to even. -/
def pyRound1 (q : ℚ) : ℚ :=
  (pyRound (q * 10) : ℚ) / 10

/-- Python's `int()` on a rational value: truncation toward zero. -/
def pyInt (q : ℚ) : ℤ :=
  if q < 0 then -Int.floor (-q) else Int.floor q

/-- `hot_leads = len(df[df["Lead Score"] == "Hot"])`. -/
def hot_leads (df : List LeadRecord) : Nat :=
  (df.filter fun r => r.LeadScore == "Hot").length

/-- `conversion_rate = round((hot_leads / total_leads) * 100, 1) if total_leads > 0 else 0`. -/
def conversion_rate (df : List LeadRecord) : ℚ :=
  if df.length > 0 then pyRound1 ((hot_leads df : ℚ) / (df.length : ℚ) * 100)
  else 0

/-- The Budget sum over Hot rows: `df[df["Lead Score"] == "Hot"]["Budget"].sum()`. -/
def hot_budget_sum (df : List LeadRecord) : Nat :=
  ((df.filter fun r => r.LeadScore == "Hot").map fun r => r.Budget).sum

/-- `projected_revenue = int(df[df["Lead Score"] == "Hot"]["Budget"].sum() * 0.3)`. -/
def projected_revenue (df : List LeadRecord) : ℤ :=
  pyInt ((hot_budget_sum df : ℚ) * (3/10))

/-! ## Claim-side definitions (worded from the spec, for comparison) -/

/-- The spec's budget component: 60 if budget >= 100000, else 45 if
budget >= 50000, else 30 if budget >= 20000, else 15 if budget > 0, else 0. -/
def claimBudgetComponent (budget : Nat) : Nat :=
  if budget ≥ 100000 then 60
  else if budget ≥ 50000 then 45
  else if budget ≥ 20000 then 30
  else if budget > 0 then 15
  else 0

/-- The spec's urgency component: High -> 40, Medium -> 25, Low -> 10,
any other value -> 0. -/
def claimUrgencyComponent (urgency : String) : Nat :=
  if urgency = "High" then 40
  else if urgency = "Medium" then 25
  else if urgency = "Low" then 10
  else 0

/-! ## Theorems -/

/-- C1: for every budget and urgency, `calculate_score` is the sum of the
spec's budget component and urgency component, the total lies in [0, 100]
(the lower bound is the type), for budget >= 100000 with urgency High the
score is 100 and the tier Hot, and for budget 0 with urgency Low the score
is 10 and the tier Cold. -/
theorem calculate_score_spec (budget : Nat) (urgency : String) :
    calculate_score budget urgency
        = claimBudgetComponent budget + claimUrgencyComponent urgency
    ∧ calculate_score budget urgency ≤ 100
    ∧ (100000 ≤ budget → calculate_score budget "High" = 100
        ∧ classify_lead (calculate_score budget "High") = "Hot")
    ∧ calculate_score 0 "Low" = 10
    ∧ classify_lead (calculate_score 0 "Low") = "Cold" := by
  have h1 : budget_score_of budget ≤ 60 := by
    unfold budget_score_of; split_ifs <;> omega
  have h2 : urgency_score_of urgency ≤ 40 := by
    unfold urgency_score_of; split_ifs <;> omega
  refine ⟨rfl, by unfold calculate_score; omega, fun h => ?_, by decide, by decide⟩
  have hb : budget_score_of budget = 60 := by simp [budget_score_of, h]
  have hc : calculate_score budget "High" = 100 := by
    unfold calculate_score; rw [hb]; decide
  rw [hc]; exact ⟨rfl, by decide⟩

/-- Witness for C1 at budget 250000, urgency High. -/
theorem calculate_score_spec_witness :
    calculate_score 250000 "High" = 100
    ∧ classify_lead (calculate_score 250000 "High") = "Hot" :=
  (calculate_score_spec 250000 "High").2.2.1 (by decide)

/-- C2: `classify_lead` returns Hot iff score >= 80, Warm iff
50 <= score < 80, Cold iff score < 50, with the stated boundary values. -/
theorem classify_lead_spec (score : ℤ) :
    (classify_lead score = "Hot" ↔ 80 ≤ score)
    ∧ (classify_lead score = "Warm" ↔ 50 ≤ score ∧ score < 80)
    ∧ (classify_lead score = "Cold" ↔ score < 50)
    ∧ classify_lead 80 = "Hot" ∧ classify_lead 79 = "Warm"
    ∧ classify_lead 50 = "Warm" ∧ classify_lead 49 = "Cold" := by
  refine ⟨?_, ?_, ?_, by decide, by decide, by decide, by decide⟩ <;>
    · unfold classify_lead
      split_ifs with ha hb <;> simp_all <;> omega

/-- Witness for C2 at the boundary scores 80 and 79. -/
theorem classify_lead_spec_witness :
    classify_lead 80 = "Hot" ∧ classify_lead 79 = "Warm" :=
  ⟨(classify_lead_spec 0).2.2.2.1, (classify_lead_spec 0).2.2.2.2.1⟩

/-- C10: for a fixed urgency, `calculate_score` is monotone in the budget. -/
theorem calculate_score_monotone (urgency : String) (b1 b2 : Nat)
    (h : b1 ≤ b2) :
    calculate_score b1 urgency ≤ calculate_score b2 urgency := by
  have hm : budget_score_of b1 ≤ budget_score_of b2 := by
    unfold budget_score_of; split_ifs <;> omega
  unfold calculate_score; omega

/-- Witness for C10 at budgets 15000 <= 60000, urgency Medium. -/
theorem calculate_score_monotone_witness :
    calculate_score 15000 "Medium" ≤ calculate_score 60000 "Medium" :=
  calculate_score_monotone "Medium" 15000 60000 (by decide)

/-- Helper: after an upsert, the rows whose Email equals the upserted
record's Email are exactly the one new record. -/
theorem upsert_filter_eq (store : List LeadRecord) (rec : LeadRecord) :
    (upsert store rec).filter (fun r => r.Email == rec.Email) = [rec] := by
  unfold upsert
  rw [List.filter_append]
  have h1 : (store.filter fun r => r.Email != rec.Email).filter
      (fun r => r.Email == rec.Email) = [] := by
    rw [List.filter_eq_nil_iff]
    intro a ha
    have h2 := (List.mem_filter.mp ha).2
    simp only [bne_iff_ne, ne_eq] at h2
    simp only [beq_iff_eq]
    exact h2
  rw [h1]
  simp

/-- C3: an upsert leaves exactly one row carrying the submitted Email,
equal field-for-field to the new record; a second upsert with the same
Email again leaves exactly one row, equal to the second write; the new
row sits at the end, and the rows before it are precisely the prior rows
whose Email differs — every such prior row is kept, and their relative
order (a subsequence of the prior store) is preserved. -/
theorem upsert_spec (store : List LeadRecord) (rec rec2 : LeadRecord)
    (h : rec2.Email = rec.Email) :
    (upsert store rec).filter (fun r => r.Email == rec.Email) = [rec]
    ∧ (upsert (upsert store rec) rec2).filter
        (fun r => r.Email == rec.Email) = [rec2]
    ∧ (upsert store rec).dropLast
        = store.filter (fun r => r.Email != rec.Email)
    ∧ (∀ r ∈ store, r.Email ≠ rec.Email → r ∈ (upsert store rec).dropLast)
    ∧ (upsert store rec).dropLast.Sublist store
    ∧ (upsert store rec).getLast? = some rec := by
  refine ⟨upsert_filter_eq store rec, ?_, ?_, ?_, ?_, ?_⟩
  · rw [← h]
    exact upsert_filter_eq (upsert store rec) rec2
  · unfold upsert
    rw [List.dropLast_concat]
  · intro r hr hne
    unfold upsert
    rw [List.dropLast_concat]
    exact List.mem_filter.mpr ⟨hr, bne_iff_ne.mpr hne⟩
  · unfold upsert
    rw [List.dropLast_concat]
    exact List.filter_sublist store
  · unfold upsert
    exact List.getLast?_concat _

/-- Concrete records used by the witnesses. -/
def recAlice : LeadRecord := mkRecord "Alice" "alice@mail.com" "9876543210" 120000 "High" 11

/-- A second submission reusing Alice's email with changed fields. -/
def recAlice2 : LeadRecord := mkRecord "Alice B" "alice@mail.com" "9876543210" 30000 "Low" 22

/-- A record under a different email. -/
def recBob : LeadRecord := mkRecord "Bob" "bob@mail.com" "0123456789" 5000 "Low" 33

/-- Witness for C3 on a one-record store: Bob's row, whose email differs,
survives the upsert of Alice's row. -/
theorem upsert_spec_witness :
    (upsert [recBob] recAlice).filter (fun r => r.Email == recAlice.Email) = [recAlice]
    ∧ (upsert (upsert [recBob] recAlice) recAlice2).filter
        (fun r => r.Email == recAlice.Email) = [recAlice2]
    ∧ (upsert [recBob] recAlice).dropLast
        = [recBob].filter (fun r => r.Email != recAlice.Email)
    ∧ recBob ∈ (upsert [recBob] recAlice).dropLast
    ∧ (upsert [recBob] recAlice).dropLast.Sublist [recBob]
    ∧ (upsert [recBob] recAlice).getLast? = some recAlice :=
  have hs := upsert_spec [recBob] recAlice recAlice2 rfl
  ⟨hs.1, hs.2.1, hs.2.2.1, hs.2.2.2.1 recBob (by decide) (by decide),
   hs.2.2.2.2.1, hs.2.2.2.2.2⟩

/-- C4: on a valid submission whose email is already in the table, the
duplicate advisory fires (`wasDuplicate = true`) and the upsert still
completes, leaving exactly one updated row for that email; when the email
is absent no advisory fires. -/
theorem analyze_duplicate_spec (store : List LeadRecord)
    (name email phone : String) (budget : Nat) (urgency : String) (now : Nat)
    (hn : name ≠ "") (he : valid_email email = true)
    (hp : valid_phone phone = true) :
    ((store.any fun r => r.Email == email) = true →
      (analyze (some store) name email phone budget urgency now).wasDuplicate = true
      ∧ (analyze (some store) name email phone budget urgency now).storeAfter
          = some (upsert store (mkRecord name email phone budget urgency now))
      ∧ (upsert store (mkRecord name email phone budget urgency now)).filter
          (fun r => r.Email == email) = [mkRecord name email phone budget urgency now])
    ∧ ((store.any fun r => r.Email == email) = false →
      (analyze (some store) name email phone budget urgency now).wasDuplicate = false) := by
  unfold analyze
  rw [if_neg hn, if_neg (by simp [he]), if_neg (by simp [hp])]
  exact ⟨fun hd => ⟨hd, rfl,
    upsert_filter_eq store (mkRecord name email phone budget urgency now)⟩,
    fun hd => hd⟩

/-- Witness for C4: resubmitting Alice's email fires the advisory and
updates in place; a fresh email does not fire it. -/
theorem analyze_duplicate_spec_witness :
    ((analyze (some [recAlice]) "Alice B" "alice@mail.com" "9876543210" 30000 "Low" 22).wasDuplicate = true
      ∧ (analyze (some [recAlice]) "Alice B" "alice@mail.com" "9876543210" 30000 "Low" 22).storeAfter
          = some (upsert [recAlice] (mkRecord "Alice B" "alice@mail.com" "9876543210" 30000 "Low" 22))
      ∧ (upsert [recAlice] (mkRecord "Alice B" "alice@mail.com" "9876543210" 30000 "Low" 22)).filter
          (fun r => r.Email == "alice@mail.com")
          = [mkRecord "Alice B" "alice@mail.com" "9876543210" 30000 "Low" 22])
    ∧ (analyze (some [recBob]) "Alice B" "alice@mail.com" "9876543210" 30000 "Low" 22).wasDuplicate = false :=
  ⟨(analyze_duplicate_spec [recAlice] "Alice B" "alice@mail.com" "9876543210"
      30000 "Low" 22 (by decide) (by decide) (by decide)).1 (by decide),
   (analyze_duplicate_spec [recBob] "Alice B" "alice@mail.com" "9876543210"
      30000 "Low" 22 (by decide) (by decide) (by decide)).2 (by decide)⟩

/-- C6: whenever validation fails the store is untouched; an invalid email
is rejected as InvalidEmail, an invalid phone as InvalidPhone; the claim's
example inputs do fail their checks. -/
theorem analyze_invalid_spec (store : Option (List LeadRecord))
    (name email phone : String) (budget : Nat) (urgency : String) (now : Nat) :
    ((analyze store name email phone budget urgency now).errorKind.isSome = true →
      (analyze store name email phone budget urgency now).storeAfter = store)
    ∧ (name ≠ "" → valid_email email = false →
      (analyze store name email phone budget urgency now).errorKind
          = some ValidationError.InvalidEmail
      ∧ (analyze store name email phone budget urgency now).storeAfter = store)
    ∧ (name ≠ "" → valid_email email = true → valid_phone phone = false →
      (analyze store name email phone budget urgency now).errorKind
          = some ValidationError.InvalidPhone
      ∧ (analyze store name email phone budget urgency now).storeAfter = store)
    ∧ valid_email "not-an-email" = false
    ∧ valid_phone "12345" = false := by
  refine ⟨?_, fun hn he => ?_, fun hn he hp => ?_, by decide, by decide⟩
  · unfold analyze
    split_ifs <;> simp
  · unfold analyze
    rw [if_neg hn, if_pos (by simp [he])]
    exact ⟨rfl, rfl⟩
  · unfold analyze
    rw [if_neg hn, if_neg (by simp [he]), if_pos (by simp [hp])]
    exact ⟨rfl, rfl⟩

/-- Witness for C6 at the claim's example inputs. -/
theorem analyze_invalid_spec_witness :
    ((analyze (some [recAlice]) "Bob" "not-an-email" "0123456789" 5000 "Low" 7).errorKind
        = some ValidationError.InvalidEmail
      ∧ (analyze (some [recAlice]) "Bob" "not-an-email" "0123456789" 5000 "Low" 7).storeAfter
          = some [recAlice])
    ∧ ((analyze (some [recAlice]) "Bob" "bob@mail.com" "12345" 5000 "Low" 7).errorKind
        = some ValidationError.InvalidPhone
      ∧ (analyze (some [recAlice]) "Bob" "bob@mail.com" "12345" 5000 "Low" 7).storeAfter
          = some [recAlice]) :=
  ⟨(analyze_invalid_spec (some [recAlice]) "Bob" "not-an-email" "0123456789"
      5000 "Low" 7).2.1 (by decide) (by decide),
   (analyze_invalid_spec (some [recAlice]) "Bob" "bob@mail.com" "12345"
      5000 "Low" 7).2.2.1 (by decide) (by decide) (by decide)⟩

/-- C7 counterexample: the code checks `if not name:`, which only catches
the empty string; the whitespace-only name " " passes the name check and
the fully valid submission goes through with no error at all. -/
theorem whitespace_name_accepted :
    " " ≠ ""
    ∧ " ".data.all Char.isWhitespace = true
    ∧ (analyze none " " "alice@mail.com" "9876543210" 5000 "Low" 7).errorKind = none := by
  exact ⟨by decide, by decide, by decide⟩

/-- C7 amended: the submission is rejected with MissingName exactly when
the name is the empty string (checked before the email and phone checks,
so the rejection happens whatever the other fields hold and the store is
untouched); any non-empty name, including whitespace-only ones, passes the
name check. -/
theorem missing_name_spec (store : Option (List LeadRecord))
    (email phone : String) (budget : Nat) (urgency : String) (now : Nat) :
    ((analyze store "" email phone budget urgency now).errorKind
        = some ValidationError.MissingName
      ∧ (analyze store "" email phone budget urgency now).storeAfter = store)
    ∧ ∀ name : String, name ≠ "" →
      (analyze store name email phone budget urgency now).errorKind
          ≠ some ValidationError.MissingName := by
  refine ⟨⟨rfl, rfl⟩, fun name hn => ?_⟩
  unfold analyze
  rw [if_neg hn]
  split_ifs <;> simp

/-- Witness for C7 (amended): the empty name is rejected even alongside
valid other fields; a two-letter name is never rejected as MissingName. -/
theorem missing_name_spec_witness :
    ((analyze none "" "alice@mail.com" "9876543210" 5000 "Low" 7).errorKind
        = some ValidationError.MissingName
      ∧ (analyze none "" "alice@mail.com" "9876543210" 5000 "Low" 7).storeAfter = none)
    ∧ (analyze none "Bo" "alice@mail.com" "9876543210" 5000 "Low" 7).errorKind
        ≠ some ValidationError.MissingName :=
  ⟨(missing_name_spec none "alice@mail.com" "9876543210" 5000 "Low" 7).1,
   (missing_name_spec none "alice@mail.com" "9876543210" 5000 "Low" 7).2 "Bo" (by decide)⟩

/-- Helper: Python's integer round is the identity on integers. -/
theorem pyRound_intCast (n : ℤ) : pyRound (n : ℚ) = n := by
  unfold pyRound
  rw [Int.floor_intCast]
  norm_num

/-- Helper: Python's `int()` is the identity on naturals. -/
theorem pyInt_natCast (n : ℕ) : pyInt (n : ℚ) = n := by
  unfold pyInt
  rw [if_neg (not_lt.mpr (by positivity)), Int.floor_natCast]

/-- The claim's sample table: tiers [Hot, Hot, Warm, Cold] with Hot
budgets [100000, 50000] (each row built by the pipeline itself). -/
def sampleLeads : List LeadRecord :=
  [ mkRecord "A" "a@mail.com" "9876543210" 100000 "High" 1,
    mkRecord "B" "b@mail.com" "9876543210" 50000 "High" 2,
    mkRecord "C" "c@mail.com" "9876543210" 20000 "Medium" 3,
    mkRecord "D" "d@mail.com" "9876543210" 0 "Low" 4 ]

/-- C5: the dashboard's conversion rate is round(hot/total*100, 1) for a
nonempty table and 0 for an empty one, projected revenue is the integer
truncation of 0.3 times the Hot budget sum, and on the sample table the
values are 2 hot leads, 50.0 percent, 45000. -/
theorem dashboard_spec (df : List LeadRecord) :
    (df.length ≠ 0 →
      conversion_rate df
        = pyRound1 ((hot_leads df : ℚ) / (df.length : ℚ) * 100))
    ∧ (df.length = 0 → conversion_rate df = 0)
    ∧ projected_revenue df = pyInt ((hot_budget_sum df : ℚ) * (3/10))
    ∧ hot_leads sampleLeads = 2
    ∧ conversion_rate sampleLeads = 50
    ∧ projected_revenue sampleLeads = 45000 := by
  refine ⟨fun h => ?_, fun h => ?_, rfl, by decide, ?_, ?_⟩
  · unfold conversion_rate
    rw [if_pos (Nat.pos_of_ne_zero h)]
  · unfold conversion_rate
    rw [if_neg (by omega)]
  · unfold conversion_rate
    rw [if_pos (by decide)]
    have e1 : hot_leads sampleLeads = 2 := by decide
    have e2 : sampleLeads.length = 4 := rfl
    rw [e1, e2]
    unfold pyRound1
    rw [show ((2 : ℕ) : ℚ) / ((4 : ℕ) : ℚ) * 100 * 10 = ((500 : ℤ) : ℚ) by norm_num,
      pyRound_intCast]
    norm_num
  · unfold projected_revenue
    have e3 : hot_budget_sum sampleLeads = 150000 := by decide
    rw [e3, show ((150000 : ℕ) : ℚ) * (3/10) = ((45000 : ℕ) : ℚ) by norm_num,
      pyInt_natCast]
    norm_num

/-- Witness for C5: the nonempty case at the sample table and the empty
case at the empty table. -/
theorem dashboard_spec_witness :
    conversion_rate sampleLeads
      = pyRound1 ((hot_leads sampleLeads : ℚ) / (sampleLeads.length : ℚ) * 100)
    ∧ conversion_rate [] = 0 :=
  ⟨(dashboard_spec sampleLeads).1 (by decide), (dashboard_spec []).2.1 rfl⟩

/-! ## Language characterization of the email matcher -/

/-- Helper: any matcher of the shape "one or more characters satisfying
`p`, then a continuation `g`" accepts exactly the lists that split into a
nonempty `p`-block followed by a `g`-accepted remainder. -/
theorem plusThen_iff (p : Char → Bool) (g f : List Char → Bool)
    (hnil : f [] = false)
    (hcons : ∀ c rest, f (c :: rest) = (p c && (g rest || f rest)))
    (cs : List Char) :
    f cs = true ↔
      ∃ a r, cs = a ++ r ∧ a ≠ [] ∧ (∀ x ∈ a, p x = true) ∧ g r = true := by
  induction cs with
  | nil =>
    rw [hnil]
    constructor
    · intro h
      simp at h
    · rintro ⟨a, r, heq, ha, -, -⟩
      cases a with
      | nil => exact absurd rfl ha
      | cons x xs => simp at heq
  | cons c rest ih =>
    rw [hcons]
    simp only [Bool.and_eq_true, Bool.or_eq_true]
    constructor
    · rintro ⟨hp, hg | hf⟩
      · exact ⟨[c], rest, rfl, by simp, by simp [hp], hg⟩
      · obtain ⟨a, r, heq, ha, hall, hgr⟩ := ih.mp hf
        refine ⟨c :: a, r, ?_, by simp, ?_, hgr⟩
        · rw [heq]
          rfl
        · intro x hx
          rcases List.mem_cons.mp hx with rfl | hx
          · exact hp
          · exact hall x hx
    · rintro ⟨a, r, heq, ha, hall, hgr⟩
      cases a with
      | nil => exact absurd rfl ha
      | cons x xs =>
        rw [List.cons_append] at heq
        injection heq with hcx hrest
        subst hcx
        refine ⟨hall c (by simp), ?_⟩
        cases xs with
        | nil =>
          left
          rw [List.nil_append] at hrest
          rw [hrest]
          exact hgr
        | cons y ys =>
          right
          exact ih.mpr ⟨y :: ys, r, hrest, by simp,
            fun z hz => hall z (List.mem_cons_of_mem _ hz), hgr⟩

/-- Helper: `dotTail` accepts exactly a literal dot followed by a
`wordPlusTail`-accepted remainder. -/
theorem dotTail_iff (endOk : List Char → Bool) (cs : List Char) :
    dotTail endOk cs = true ↔
      ∃ r, cs = '.' :: r ∧ wordPlusTail endOk r = true := by
  cases cs with
  | nil => simp [dotTail]
  | cons c rest =>
    simp [dotTail, List.cons.injEq]
    constructor
    · rintro ⟨rfl, h⟩
      exact ⟨rest, ⟨rfl, rfl⟩, h⟩
    · rintro ⟨r, ⟨rfl, rfl⟩, h⟩
      exact ⟨rfl, h⟩

/-- Helper: `atDomainTail` accepts exactly a literal `@` followed by a
`domainTail`-accepted remainder. -/
theorem atDomainTail_iff (endOk : List Char → Bool) (cs : List Char) :
    atDomainTail endOk cs = true ↔
      ∃ r, cs = '@' :: r ∧ domainTail endOk r = true := by
  cases cs with
  | nil => simp [atDomainTail]
  | cons c rest =>
    simp [atDomainTail, List.cons.injEq]
    constructor
    · rintro ⟨rfl, h⟩
      exact ⟨rest, ⟨rfl, rfl⟩, h⟩
    · rintro ⟨r, ⟨rfl, rfl⟩, h⟩
      exact ⟨rfl, h⟩

/-- Helper: Python's `$` matches exactly at the end or before one final
newline. -/
theorem dollarOk_iff (t : List Char) :
    dollarOk t = true ↔ t = [] ∨ t = ['\n'] := by
  match t with
  | [] => simp [dollarOk]
  | [c] => simp [dollarOk]
  | a :: b :: m => simp [dollarOk]

/-- Helper: the strict end test matches exactly at the end. -/
theorem strictEnd_iff (t : List Char) : strictEnd t = true ↔ t = [] := by
  cases t <;> simp [strictEnd]

/-- The whole-pattern characterization, for any end test: the matcher
accepts exactly the lists of the form
local `@` domain `.` word-block `++` accepted tail. -/
theorem emailTail_decomp (endOk : List Char → Bool) (cs : List Char) :
    emailTail endOk cs = true ↔
      ∃ a b w t, cs = a ++ '@' :: (b ++ '.' :: (w ++ t))
        ∧ a ≠ [] ∧ (∀ x ∈ a, isWddChar x = true)
        ∧ b ≠ [] ∧ (∀ x ∈ b, isWddChar x = true)
        ∧ w ≠ [] ∧ (∀ x ∈ w, isWordChar x = true)
        ∧ endOk t = true := by
  rw [plusThen_iff isWddChar (atDomainTail endOk) (emailTail endOk) rfl
    (fun c rest => rfl) cs]
  constructor
  · rintro ⟨a, r, rfl, ha, halla, hat⟩
    obtain ⟨r1, rfl, hdom⟩ := (atDomainTail_iff endOk r).mp hat
    obtain ⟨b, r2, rfl, hb, hallb, hdot⟩ :=
      (plusThen_iff isWddChar (dotTail endOk) (domainTail endOk) rfl
        (fun c rest => rfl) r1).mp hdom
    obtain ⟨r3, rfl, hword⟩ := (dotTail_iff endOk r2).mp hdot
    obtain ⟨w, t, rfl, hw, hallw, hend⟩ :=
      (plusThen_iff isWordChar endOk (wordPlusTail endOk) rfl
        (fun c rest => rfl) r3).mp hword
    exact ⟨a, b, w, t, rfl, ha, halla, hb, hallb, hw, hallw, hend⟩
  · rintro ⟨a, b, w, t, rfl, ha, halla, hb, hallb, hw, hallw, hend⟩
    refine ⟨a, '@' :: (b ++ '.' :: (w ++ t)), rfl, ha, halla, ?_⟩
    refine (atDomainTail_iff endOk _).mpr ⟨_, rfl, ?_⟩
    refine (plusThen_iff isWddChar (dotTail endOk) (domainTail endOk) rfl
      (fun c rest => rfl) _).mpr ⟨b, '.' :: (w ++ t), rfl, hb, hallb, ?_⟩
    refine (dotTail_iff endOk _).mpr ⟨_, rfl, ?_⟩
    exact (plusThen_iff isWordChar endOk (wordPlusTail endOk) rfl
      (fun c rest => rfl) _).mpr ⟨w, t, rfl, hw, hallw, hend⟩

/-- C9 counterexample: `valid_email` accepts a string carrying a trailing
newline after the pattern, which the claim's fully anchored matcher (no
extra trailing characters) rejects. -/
theorem valid_email_trailing_newline :
    valid_email "a@b.c\n" = true ∧ claimAnchoredEmail "a@b.c\n" = false := by
  decide

/-- C9 amended: `valid_email` accepts exactly the strings of the form
word-block `@` word-block `.` word-block, anchored at the start, where at
the end Python's `$` additionally permits exactly one trailing newline;
the strictly anchored matcher accepts exactly the same shape with nothing
after the final word-block. -/
theorem valid_email_spec (email : String) :
    (valid_email email = true ↔
      ∃ a b w t, email.data = a ++ '@' :: (b ++ '.' :: (w ++ t))
        ∧ a ≠ [] ∧ (∀ x ∈ a, isWddChar x = true)
        ∧ b ≠ [] ∧ (∀ x ∈ b, isWddChar x = true)
        ∧ w ≠ [] ∧ (∀ x ∈ w, isWordChar x = true)
        ∧ (t = [] ∨ t = ['\n']))
    ∧ (claimAnchoredEmail email = true ↔
      ∃ a b w, email.data = a ++ '@' :: (b ++ '.' :: w)
        ∧ a ≠ [] ∧ (∀ x ∈ a, isWddChar x = true)
        ∧ b ≠ [] ∧ (∀ x ∈ b, isWddChar x = true)
        ∧ w ≠ [] ∧ (∀ x ∈ w, isWordChar x = true)) := by
  constructor
  · rw [valid_email, emailTail_decomp]
    simp only [dollarOk_iff]
  · rw [claimAnchoredEmail, emailTail_decomp]
    constructor
    · rintro ⟨a, b, w, t, heq, ha, halla, hb, hallb, hw, hallw, hend⟩
      rw [strictEnd_iff] at hend
      subst hend
      rw [List.append_nil] at heq
      exact ⟨a, b, w, heq, ha, halla, hb, hallb, hw, hallw⟩
    · rintro ⟨a, b, w, heq, ha, halla, hb, hallb, hw, hallw⟩
      exact ⟨a, b, w, [], by rw [List.append_nil]; exact heq,
        ha, halla, hb, hallb, hw, hallw, rfl⟩

/-- Witness for C9 (amended) at a concrete address. -/
theorem valid_email_spec_witness :
    valid_email "user@mail.com" = true ↔
      ∃ a b w t, "user@mail.com".data = a ++ '@' :: (b ++ '.' :: (w ++ t))
        ∧ a ≠ [] ∧ (∀ x ∈ a, isWddChar x = true)
        ∧ b ≠ [] ∧ (∀ x ∈ b, isWddChar x = true)
        ∧ w ≠ [] ∧ (∀ x ∈ w, isWordChar x = true)
        ∧ (t = [] ∨ t = ['\n']) :=
  (valid_email_spec "user@mail.com").1

/-- The claim's character class: an ASCII digit 0-9. -/
def isAsciiDigit (c : Char) : Bool :=
  '0' ≤ c && c ≤ '9'

/-- C8 counterexample: a string of ten fullwidth digits (U+FF10..U+FF19)
is accepted by `valid_phone` — Python's `str.isdigit` is true on it and
its length is 10 — although none of its characters is an ASCII digit, so
the claim's "every character is an ASCII digit 0-9" reading demands
rejection. -/
theorem valid_phone_fullwidth :
    valid_phone "１２３４５６７８９０" = true
    ∧ "１２３４５６７８９０".data.all isAsciiDigit = false := by
  decide

/-- C8 amended: `valid_phone` accepts exactly the strings of length 10
whose characters all satisfy Python's `str.isdigit`; ASCII digits do, but
so do non-ASCII digit characters such as the fullwidth digits, while `+`,
space and `-` are rejected. -/
theorem valid_phone_spec (phone : String) :
    (valid_phone phone = true ↔
      phone.data.length = 10 ∧ phone.data.all pyIsDigit = true)
    ∧ (∀ c : Char, isAsciiDigit c = true → pyIsDigit c = true)
    ∧ pyIsDigit '+' = false ∧ pyIsDigit ' ' = false ∧ pyIsDigit '-' = false := by
  refine ⟨?_, fun c hc => ?_, by decide, by decide, by decide⟩
  · unfold valid_phone
    simp only [Bool.and_eq_true, Bool.not_eq_true', beq_iff_eq]
    constructor
    · rintro ⟨⟨-, h2⟩, h3⟩
      exact ⟨h3, h2⟩
    · rintro ⟨h3, h2⟩
      refine ⟨⟨?_, h2⟩, h3⟩
      cases hd : phone.data with
      | nil => rw [hd] at h3; simp at h3
      | cons a l => rfl
  · unfold isAsciiDigit at hc
    unfold pyIsDigit
    rw [Bool.or_eq_true]
    exact Or.inl hc

/-- Witness for C8 (amended) at a ten-ASCII-digit phone and the digit 7. -/
theorem valid_phone_spec_witness :
    (valid_phone "0123456789" = true ↔
      "0123456789".data.length = 10 ∧ "0123456789".data.all pyIsDigit = true)
    ∧ pyIsDigit '7' = true :=
  ⟨(valid_phone_spec "0123456789").1,
   (valid_phone_spec "0123456789").2.1 '7' (by decide)⟩

end LeadRevive
